import Mathlib

set_option maxRecDepth 16384

/-!
Verification of the task-graph assembly and combination-resolution core of the
pollination/three-phase repository.

The repository declares several DAGs of simulation tasks
(`src/pollination/three_phase/entry.py`,
`src/pollination/three_phase/three_phase/entry.py`,
`src/pollination/three_phase/three_phase/preparation.py`,
`src/pollination/three_phase/two_phase/dynamic/_raytracing.py`).
Each `@task` method becomes a `TaskDescriptor` below; each `DAG` dataclass
becomes a `DAGDescriptor`.  Template strings such as
`calcs/2_phase/(item.identifier)` are embedded structurally as lists of
`TmplPart`s, so substitution is explicit rather than string rewriting.
-/

namespace ThreePhase

/-- One piece of a path/identifier template: literal text or a loop-item
field reference (the source writes fields inside double curly braces). -/
inductive TmplPart where
  | txt (s : String)
  | field (f : String)
  deriving Repr, DecidableEq

/-- A template is a sequence of parts. -/
abbrev Tmpl := List TmplPart

/-- Shorthand for a pure-text template. -/
def tx (s : String) : Tmpl := [TmplPart.txt s]

/-- A value bound to a task input in a `@task` method signature. -/
inductive BoundValue where
  /-- A literal constant (string or stringified number). -/
  | lit (s : String)
  /-- A reference to another task's declared output (`task._outputs.name`). -/
  | taskOut (taskName outName : String)
  /-- A reference to one of the enclosing DAG's own inputs. -/
  | dagInput (name : String)
  /-- A loop-item field template such as `(item.identifier)`. -/
  | itemTmpl (t : Tmpl)
  deriving Repr, DecidableEq

/-- One entry of the list a `@task` method returns: a declared output with an
optional destination path (the `to` key). -/
structure TaskOutputDecl where
  src : String
  dest : Option Tmpl
  deriving Repr, DecidableEq

/-- A single `@task`-decorated method: name, template reference, `needs`
list, optional `loop` source, optional `sub_folder`, `sub_paths` mapping and
the input bindings of the method signature. -/
structure TaskDescriptor where
  name : String
  templateRef : String
  needs : List String
  loop : Option BoundValue
  subFolder : Option Tmpl
  subPaths : List (String × Tmpl)
  inputs : List (String × BoundValue)
  outputs : List TaskOutputDecl
  deriving Repr, DecidableEq

/-- The declared type of a DAG-level input. -/
inductive InputKind where
  | float | int | str | file | folder | list
  deriving Repr, DecidableEq

/-- A DAG-level input declaration (`Inputs.float`, `Inputs.int`, ...), with
the numeric validation bounds of its `spec` dictionary when present. -/
structure DagInputDecl where
  name : String
  kind : InputKind
  description : String := ""
  defaultNum : Option ℚ := none
  defaultStr : Option String := none
  minB : Option ℚ := none
  maxB : Option ℚ := none
  optionalFlag : Bool := false
  pathMount : Option String := none
  extensions : List String := []
  deriving Repr, DecidableEq

/-- One DAG scope: its declared inputs, its tasks and its declared
DAG-level outputs (name together with the `source` path). -/
structure DAGDescriptor where
  name : String
  dagInputs : List DagInputDecl
  tasks : List TaskDescriptor
  dagOutputs : List (String × String)
  deriving Repr, DecidableEq

/-! ## Embedding of `src/pollination/three_phase/entry.py` (top-level DAG) -/

def north : DagInputDecl :=
  { name := "north", kind := .float,
    description := "A number for rotation from north.",
    defaultNum := some 0, minB := some 0, maxB := some 360 }

def cpu_count : DagInputDecl :=
  { name := "cpu_count", kind := .int,
    description := "The maximum number of CPUs for parallel execution. This will be used to determine the number of sensors run by each worker.",
    defaultNum := some 50, minB := some 1 }

def min_sensor_count : DagInputDecl :=
  { name := "min_sensor_count", kind := .int,
    description := "The minimum number of sensors in each sensor grid after redistributing the sensors based on cpu_count. This value takes precedence over the cpu_count and can be used to ensure that the parallelization does not result in generating unnecessarily small sensor grids. The default value is set to 1, which means that the cpu_count is always respected.",
    defaultNum := some 50, minB := some 1 }

def radiance_parameters : DagInputDecl :=
  { name := "radiance_parameters", kind := .str,
    description := "The radiance parameters for ray tracing.",
    defaultStr := some "-ab 1 -ad 100 -lw 0.01" }

def grid_filter : DagInputDecl :=
  { name := "grid_filter", kind := .str,
    defaultStr := some "*" }

def model_input : DagInputDecl :=
  { name := "model", kind := .file,
    description := "A Honeybee model in HBJSON file format.",
    extensions := ["json", "hbjson"] }

def wea : DagInputDecl :=
  { name := "wea", kind := .file, description := "Wea file.",
    extensions := ["wea"] }

def t_create_rad_folder : TaskDescriptor :=
  { name := "_create_rad_folder", templateRef := "CreateRadianceFolderGrid",
    needs := [], loop := none, subFolder := none, subPaths := [],
    inputs := [("input_model", .dagInput "model"),
               ("grid_filter", .dagInput "grid_filter")],
    outputs := [⟨"model_folder", some (tx "model")⟩,
                ⟨"bsdf_folder", some (tx "model/bsdf")⟩,
                ⟨"sensor_grids", none⟩,
                ⟨"model_sensor_grids_file", some (tx "results/2_phase/_model_grids_info.json")⟩,
                ⟨"sensor_grids_file", some (tx "results/2_phase/_info.json")⟩,
                ⟨"receivers", none⟩] }

def t_generate_sunpath : TaskDescriptor :=
  { name := "generate_sunpath", templateRef := "CreateSunMatrix",
    needs := [], loop := none, subFolder := none, subPaths := [],
    inputs := [("north", .dagInput "north"), ("wea", .dagInput "wea")],
    outputs := [⟨"sunpath", some (tx "resources/sky_vectors/sunpath.mtx")⟩,
                ⟨"sun_modifiers", some (tx "resources/sky_vectors/suns.mod")⟩] }

def t_parse_sun_up_hours : TaskDescriptor :=
  { name := "parse_sun_up_hours", templateRef := "ParseSunUpHours",
    needs := ["generate_sunpath"], loop := none, subFolder := none, subPaths := [],
    inputs := [("sun_modifiers", .taskOut "generate_sunpath" "sun_modifiers")],
    outputs := [⟨"sun_up_hours", some (tx "resources/sky_vectors/sun-up-hours.txt")⟩] }

def t_create_sky_dome : TaskDescriptor :=
  { name := "create_sky_dome", templateRef := "CreateSkyDome",
    needs := [], loop := none, subFolder := none, subPaths := [],
    inputs := [],
    outputs := [⟨"sky_dome", some (tx "resources/sky_vectors/sky_dome.rad")⟩] }

def t_create_total_sky : TaskDescriptor :=
  { name := "create_total_sky", templateRef := "CreateSkyMatrix",
    needs := [], loop := none, subFolder := none, subPaths := [],
    inputs := [("north", .dagInput "north"), ("wea", .dagInput "wea"),
               ("sun_up_hours", .lit "sun-up-hours")],
    outputs := [⟨"sky_matrix", some (tx "resources/sky_vectors/sky.mtx")⟩] }

def t_create_direct_sky : TaskDescriptor :=
  { name := "create_direct_sky", templateRef := "CreateSkyMatrix",
    needs := [], loop := none, subFolder := none, subPaths := [],
    inputs := [("north", .dagInput "north"), ("wea", .dagInput "wea"),
               ("sky_type", .lit "sun-only"),
               ("sun_up_hours", .lit "sun-up-hours")],
    outputs := [⟨"sky_matrix", some (tx "resources/sky_vectors/sky_direct.mtx")⟩] }

def t_split_grid_folder : TaskDescriptor :=
  { name := "split_grid_folder", templateRef := "SplitGridFolder",
    needs := ["_create_rad_folder"], loop := none, subFolder := none,
    subPaths := [("input_folder", tx "grid")],
    inputs := [("input_folder", .taskOut "_create_rad_folder" "model_folder"),
               ("cpu_count", .dagInput "cpu_count"),
               ("cpus_per_grid", .lit "3"),
               ("min_sensor_count", .dagInput "min_sensor_count")],
    outputs := [⟨"output_folder", some (tx "resources/grid")⟩,
                ⟨"sensor_grids", none⟩] }

def t_create_octree_with_suns : TaskDescriptor :=
  { name := "create_octree_with_suns", templateRef := "CreateOctreeWithSky",
    needs := ["generate_sunpath", "_create_rad_folder"], loop := none,
    subFolder := none, subPaths := [],
    inputs := [("model", .taskOut "_create_rad_folder" "model_folder"),
               ("sky", .taskOut "generate_sunpath" "sunpath")],
    outputs := [⟨"scene_file", some (tx "resources/octrees/scene_with_suns.oct")⟩] }

def t_create_octree : TaskDescriptor :=
  { name := "create_octree", templateRef := "CreateOctree",
    needs := ["_create_rad_folder"], loop := none, subFolder := none, subPaths := [],
    inputs := [("model", .taskOut "_create_rad_folder" "model_folder"),
               ("include_aperture", .lit "exclude"),
               ("black_out", .lit "default")],
    outputs := [⟨"scene_file", some (tx "resources/octrees/main.oct")⟩] }

def t_create_octrees : TaskDescriptor :=
  { name := "create_octrees", templateRef := "CreateOctrees",
    needs := ["_create_rad_folder", "generate_sunpath"], loop := none,
    subFolder := none, subPaths := [],
    inputs := [("model", .taskOut "_create_rad_folder" "model_folder"),
               ("sunpath", .taskOut "generate_sunpath" "sunpath")],
    outputs := [⟨"scene_folder", some (tx "resources/octrees/2_phase")⟩,
                ⟨"scene_info", none⟩] }

def t_calculate_two_phase_matrix : TaskDescriptor :=
  { name := "calculate_two_phase_matrix", templateRef := "TwoPhaseEntryPoint",
    needs := ["_create_rad_folder", "create_octrees", "split_grid_folder",
              "create_total_sky", "create_direct_sky", "create_sky_dome",
              "generate_sunpath"],
    loop := some (.taskOut "create_octrees" "scene_info"),
    subFolder := some [.txt "calcs/2_phase/", .field "identifier"],
    subPaths := [("octree", [.field "octree"]),
                 ("octree_direct", [.field "octree_direct"]),
                 ("octree_direct_sun", [.field "octree_direct_sun"])],
    inputs := [("identifier", .itemTmpl [.field "identifier"]),
               ("radiance_parameters", .dagInput "radiance_parameters"),
               ("sensor_grids_info", .taskOut "split_grid_folder" "sensor_grids"),
               ("sensor_grids_folder", .taskOut "split_grid_folder" "output_folder"),
               ("octree", .taskOut "create_octrees" "scene_folder"),
               ("octree_direct", .taskOut "create_octrees" "scene_folder"),
               ("octree_direct_sun", .taskOut "create_octrees" "scene_folder"),
               ("sky_dome", .taskOut "create_sky_dome" "sky_dome"),
               ("total_sky", .taskOut "create_total_sky" "sky_matrix"),
               ("direct_sky", .taskOut "create_direct_sky" "sky_matrix"),
               ("sun_modifiers", .taskOut "generate_sunpath" "sun_modifiers"),
               ("bsdf_folder", .taskOut "_create_rad_folder" "bsdf_folder"),
               ("results_folder", .lit "../../../results/2_phase")],
    outputs := [] }

def t_calculate_view_matrix : TaskDescriptor :=
  { name := "calculate_view_matrix", templateRef := "ViewMatrixRayTracing",
    needs := ["_create_rad_folder", "create_octree"],
    loop := some (.taskOut "_create_rad_folder" "receivers"),
    subFolder := some (tx "calcs/3_phase/view_mtx"),
    subPaths := [("sensor_grid", [.txt "grid/", .field "identifier", .txt ".pts"]),
                 ("receiver_file", [.txt "receiver/", .field "path"]),
                 ("receivers_folder", tx "aperture_group")],
    inputs := [("radiance_parameters", .dagInput "radiance_parameters"),
               ("sensor_count", .itemTmpl [.field "count"]),
               ("receiver_file", .taskOut "_create_rad_folder" "model_folder"),
               ("sensor_grid", .taskOut "_create_rad_folder" "model_folder"),
               ("scene_file", .taskOut "create_octree" "scene_file"),
               ("receivers_folder", .taskOut "_create_rad_folder" "model_folder"),
               ("bsdf_folder", .taskOut "_create_rad_folder" "bsdf_folder"),
               ("fixed_radiance_parameters",
                .itemTmpl [.txt "-aa 0.0 -I -c 1 -o vmtx/", .field "identifier",
                           .txt "..%%s.vtmx"])],
    outputs := [] }

def t_group_apertures : TaskDescriptor :=
  { name := "group_apertures", templateRef := "DaylightMatrixGrouping",
    needs := ["_create_rad_folder", "create_octree", "create_sky_dome"],
    loop := none, subFolder := none, subPaths := [],
    inputs := [("model_folder", .taskOut "_create_rad_folder" "model_folder"),
               ("scene_file", .taskOut "create_octree" "scene_file"),
               ("sky_dome", .taskOut "create_sky_dome" "sky_dome")],
    outputs := [⟨"grouped_apertures_folder", some (tx "model/sender")⟩,
                ⟨"grouped_apertures", none⟩] }

def t_daylight_mtx_calculation : TaskDescriptor :=
  { name := "daylight_mtx_calculation", templateRef := "DaylightMtxRayTracing",
    needs := ["_create_rad_folder", "create_octree", "create_sky_dome",
              "group_apertures"],
    loop := some (.taskOut "group_apertures" "grouped_apertures"),
    subFolder := some (tx "calcs/3_phase/daylight_mtx"),
    subPaths := [("sender_file", [.field "identifier", .txt ".rad"]),
                 ("senders_folder", tx "aperture_group")],
    inputs := [("name", .itemTmpl [.field "identifier"]),
               ("radiance_parameters", .dagInput "radiance_parameters"),
               ("receiver_file", .taskOut "create_sky_dome" "sky_dome"),
               ("sender_file", .taskOut "group_apertures" "grouped_apertures_folder"),
               ("senders_folder", .taskOut "_create_rad_folder" "model_folder"),
               ("scene_file", .taskOut "create_octree" "scene_file"),
               ("bsdf_folder", .taskOut "_create_rad_folder" "bsdf_folder")],
    outputs := [] }

def t_get_three_phase_combinations : TaskDescriptor :=
  { name := "get_three_phase_combinations", templateRef := "MultiPhaseCombinations",
    needs := ["group_apertures", "_create_rad_folder"],
    loop := none, subFolder := none,
    subPaths := [("sender_info", tx "_info.json"),
                 ("states_info", tx "aperture_group/states.json"),
                 ("receiver_info", tx "receiver/_info.json")],
    inputs := [("sender_info", .taskOut "group_apertures" "grouped_apertures_folder"),
               ("receiver_info", .taskOut "_create_rad_folder" "model_folder"),
               ("states_info", .taskOut "_create_rad_folder" "model_folder")],
    outputs := [⟨"results_mapper", some (tx "results/3_phase/_info.json")⟩,
                ⟨"multiplication_info", none⟩] }

def t_multiply_matrix : TaskDescriptor :=
  { name := "multiply_matrix", templateRef := "MultiplyMatrixDag",
    needs := ["get_three_phase_combinations", "daylight_mtx_calculation",
              "create_total_sky"],
    loop := some (.taskOut "get_three_phase_combinations" "multiplication_info"),
    subFolder := some (tx "results/3_phase"),
    subPaths := [("view_matrix", [.field "vmtx"]),
                 ("t_matrix", [.field "tmtx"]),
                 ("daylight_matrix", [.field "dmtx"])],
    inputs := [("identifier", .itemTmpl [.field "identifier"]),
               ("sky_vector", .taskOut "create_total_sky" "sky_matrix"),
               ("view_matrix", .lit "calcs/3_phase/view_mtx"),
               ("t_matrix", .lit "model/bsdf"),
               ("daylight_matrix", .lit "calcs/3_phase/daylight_mtx")],
    outputs := [] }

/-- The top-level `ThreePhaseEntryPoint` DAG of
`src/pollination/three_phase/entry.py`.  The module-level binding
`results = Outputs.folder(source='results')` on its last line sits outside
the class body, so the class itself declares no DAG-level outputs. -/
def threePhaseDag : DAGDescriptor :=
  { name := "three-phase-entry-point",
    dagInputs := [north, cpu_count, min_sensor_count, radiance_parameters,
                  grid_filter, model_input, wea],
    tasks := [t_create_rad_folder, t_generate_sunpath, t_parse_sun_up_hours,
              t_create_sky_dome, t_create_total_sky, t_create_direct_sky,
              t_split_grid_folder, t_create_octree_with_suns, t_create_octree,
              t_create_octrees, t_calculate_two_phase_matrix,
              t_calculate_view_matrix, t_group_apertures,
              t_daylight_mtx_calculation, t_get_three_phase_combinations,
              t_multiply_matrix],
    dagOutputs := [] }

/-! ## Embedding of `src/pollination/three_phase/three_phase/entry.py`
(nested three-phase DAG) -/

namespace Nested

def model_folder : DagInputDecl :=
  { name := "model_folder", kind := .folder,
    description := "Radiance model folder", pathMount := some "model" }

def receivers : DagInputDecl :=
  { name := "receivers", kind := .list,
    description := "A list with receivers information." }

def view_mtx_rad_params : DagInputDecl :=
  { name := "view_mtx_rad_params", kind := .str,
    defaultStr := some "-ab 2 -ad 5000 -lw 2e-05" }

def daylight_mtx_rad_params : DagInputDecl :=
  { name := "daylight_mtx_rad_params", kind := .str,
    defaultStr := some "-ab 2 -ad 5000 -lw 2e-05" }

def octree : DagInputDecl := { name := "octree", kind := .file }

def sky_dome : DagInputDecl := { name := "sky_dome", kind := .file }

def sky_matrix : DagInputDecl := { name := "sky_matrix", kind := .file }

def bsdf_folder : DagInputDecl :=
  { name := "bsdf_folder", kind := .folder, optionalFlag := true }

def t_calculate_view_matrix : TaskDescriptor :=
  { name := "calculate_view_matrix", templateRef := "ViewMatrixRayTracing",
    needs := [],
    loop := some (.dagInput "receivers"),
    subFolder := some (tx "view_mtx"),
    subPaths := [("sensor_grid", [.txt "grid/", .field "identifier", .txt ".pts"]),
                 ("receiver_file", [.txt "receiver/", .field "path"]),
                 ("receivers_folder", tx "aperture_group")],
    inputs := [("radiance_parameters", .dagInput "view_mtx_rad_params"),
               ("sensor_count", .itemTmpl [.field "count"]),
               ("receiver_file", .dagInput "model_folder"),
               ("sensor_grid", .dagInput "model_folder"),
               ("scene_file", .dagInput "octree"),
               ("receivers_folder", .dagInput "model_folder"),
               ("bsdf_folder", .dagInput "bsdf_folder"),
               ("fixed_radiance_parameters",
                .itemTmpl [.txt "-aa 0.0 -I -c 1 -o vmtx/", .field "identifier",
                           .txt "..%%s.vtmx"])],
    outputs := [] }

def t_group_apertures : TaskDescriptor :=
  { name := "group_apertures", templateRef := "DaylightMatrixGrouping",
    needs := [], loop := none, subFolder := none, subPaths := [],
    inputs := [("model_folder", .dagInput "model_folder"),
               ("scene_file", .dagInput "octree"),
               ("sky_dome", .dagInput "sky_dome")],
    outputs := [⟨"grouped_apertures_folder", some (tx "model/sender")⟩,
                ⟨"grouped_apertures", none⟩] }

def t_daylight_mtx_calculation : TaskDescriptor :=
  { name := "daylight_mtx_calculation", templateRef := "DaylightMtxRayTracing",
    needs := ["group_apertures"],
    loop := some (.taskOut "group_apertures" "grouped_apertures"),
    subFolder := some (tx "daylight_mtx"),
    subPaths := [("sender_file", [.field "identifier", .txt ".rad"]),
                 ("senders_folder", tx "aperture_group")],
    inputs := [("name", .itemTmpl [.field "identifier"]),
               ("radiance_parameters", .dagInput "daylight_mtx_rad_params"),
               ("receiver_file", .dagInput "sky_dome"),
               ("sender_file", .taskOut "group_apertures" "grouped_apertures_folder"),
               ("senders_folder", .dagInput "model_folder"),
               ("scene_file", .dagInput "octree"),
               ("bsdf_folder", .dagInput "bsdf_folder")],
    outputs := [] }

def t_get_three_phase_combinations : TaskDescriptor :=
  { name := "get_three_phase_combinations", templateRef := "MultiPhaseCombinations",
    needs := ["group_apertures"],
    loop := none, subFolder := none,
    subPaths := [("sender_info", tx "_info.json"),
                 ("states_info", tx "aperture_group/states.json"),
                 ("receiver_info", tx "receiver/_info.json")],
    inputs := [("sender_info", .taskOut "group_apertures" "grouped_apertures_folder"),
               ("receiver_info", .dagInput "model_folder"),
               ("states_info", .dagInput "model_folder")],
    outputs := [⟨"results_mapper", some (tx "results/_info.json")⟩,
                ⟨"multiplication_info", none⟩] }

def t_multiply_matrix : TaskDescriptor :=
  { name := "multiply_matrix", templateRef := "MultiplyMatrixDag",
    needs := ["get_three_phase_combinations", "daylight_mtx_calculation"],
    loop := some (.taskOut "get_three_phase_combinations" "multiplication_info"),
    subFolder := some (tx "results"),
    subPaths := [("view_matrix", [.field "vmtx"]),
                 ("t_matrix", [.txt "bsdf/", .field "tmtx"]),
                 ("daylight_matrix", [.field "dmtx"])],
    inputs := [("identifier", .itemTmpl [.field "identifier"]),
               ("sky_vector", .dagInput "sky_matrix"),
               ("view_matrix", .lit "view_mtx"),
               ("t_matrix", .dagInput "model_folder"),
               ("daylight_matrix", .lit "daylight_mtx")],
    outputs := [] }

end Nested

/-- The nested `ThreePhaseEntryPoint` DAG of
`src/pollination/three_phase/three_phase/entry.py`; unlike the top-level
DAG it declares `results_folder = Outputs.folder(source='results')` inside
the class body. -/
def nestedThreePhaseDag : DAGDescriptor :=
  { name := "three-phase-dag",
    dagInputs := [Nested.model_folder, Nested.receivers,
                  Nested.view_mtx_rad_params, Nested.daylight_mtx_rad_params,
                  Nested.octree, Nested.sky_dome, Nested.sky_matrix,
                  Nested.bsdf_folder],
    tasks := [Nested.t_calculate_view_matrix, Nested.t_group_apertures,
              Nested.t_daylight_mtx_calculation,
              Nested.t_get_three_phase_combinations, Nested.t_multiply_matrix],
    dagOutputs := [("results_folder", "results")] }

/-! ## Embedding of `src/pollination/three_phase/three_phase/preparation.py` -/

namespace Prep

def t_daylight_matrix_aperture_grouping : TaskDescriptor :=
  { name := "daylight_matrix_aperture_grouping",
    templateRef := "DaylightMatrixGrouping",
    needs := [], loop := none, subFolder := none, subPaths := [],
    inputs := [("model_folder", .dagInput "model_folder"),
               ("scene_file", .dagInput "octree"),
               ("sky_dome", .dagInput "sky_dome"),
               ("size", .dagInput "size"),
               ("threshold", .dagInput "threshold"),
               ("ambient_division", .dagInput "ambient_division")],
    outputs := [⟨"grouped_apertures_folder", some (tx "model/sender")⟩,
                ⟨"grouped_apertures", none⟩,
                ⟨"grouped_apertures_file", some (tx "model/sender/_info.json")⟩] }

def t_get_three_phase_combinations : TaskDescriptor :=
  { name := "get_three_phase_combinations", templateRef := "MultiPhaseCombinations",
    needs := ["daylight_matrix_aperture_grouping"],
    loop := none, subFolder := none,
    subPaths := [("sender_info", tx "_info.json"),
                 ("states_info", tx "aperture_group/states.json"),
                 ("receiver_info", tx "receiver/_info.json")],
    inputs := [("sender_info",
                .taskOut "daylight_matrix_aperture_grouping" "grouped_apertures_folder"),
               ("receiver_info", .dagInput "model_folder"),
               ("states_info", .dagInput "model_folder")],
    outputs := [⟨"results_mapper", some (tx "results/_info.json")⟩,
                ⟨"multiplication_file", some (tx "multiplication_info.json")⟩,
                ⟨"multiplication_info", none⟩] }

end Prep

/-- The `ThreePhaseInputsPreparation` DAG of
`src/pollination/three_phase/three_phase/preparation.py`. -/
def preparationDag : DAGDescriptor :=
  { name := "three-phase-inputs-preparation",
    dagInputs := [{ name := "model_folder", kind := .folder, pathMount := some "model" },
                  { name := "octree", kind := .file },
                  { name := "sky_dome", kind := .file },
                  { name := "bsdf_folder", kind := .folder, optionalFlag := true },
                  { name := "size", kind := .float, defaultNum := some (2/10) },
                  { name := "threshold", kind := .float, defaultNum := some (1/1000) },
                  { name := "ambient_division", kind := .int, defaultNum := some 1000 }],
    tasks := [Prep.t_daylight_matrix_aperture_grouping,
              Prep.t_get_three_phase_combinations],
    dagOutputs := [("grouped_apertures_folder", "model/sender"),
                   ("grouped_apertures_info", "grouped_apertures_file"),
                   ("multiplication_info", "multiplication_info.json"),
                   ("results_info", "results/_info.json")] }

/-! ## Embedding of
`src/pollination/three_phase/two_phase/dynamic/_raytracing.py` -/

namespace TwoPhaseRt

def t_direct_sunlight : TaskDescriptor :=
  { name := "direct_sunlight", templateRef := "DaylightContribution",
    needs := [], loop := none, subFolder := none, subPaths := [],
    inputs := [("radiance_parameters", .dagInput "radiance_parameters"),
               ("fixed_radiance_parameters",
                .lit "-aa 0.0 -I -faf -ab 0 -dc 1.0 -dt 0.0 -dj 0.0 -dr 0"),
               ("sensor_count", .dagInput "sensor_count"),
               ("modifiers", .dagInput "sun_modifiers"),
               ("sensor_grid", .dagInput "sensor_grid"),
               ("scene_file", .dagInput "octree_file_with_suns"),
               ("bsdf_folder", .dagInput "bsdfs")],
    outputs := [⟨"result_file", some (tx "direct_sunlight.ill")⟩] }

def t_direct_sky : TaskDescriptor :=
  { name := "direct_sky", templateRef := "DaylightCoefficient",
    needs := [], loop := none, subFolder := none, subPaths := [],
    inputs := [("radiance_parameters", .dagInput "radiance_parameters"),
               ("fixed_radiance_parameters", .lit "-aa 0.0 -I -ab 1 -c 1 -faf"),
               ("sensor_count", .dagInput "sensor_count"),
               ("sky_matrix", .dagInput "sky_matrix_direct"),
               ("sky_dome", .dagInput "sky_dome"),
               ("sensor_grid", .dagInput "sensor_grid"),
               ("scene_file", .dagInput "octree_file_direct"),
               ("bsdf_folder", .dagInput "bsdfs")],
    outputs := [⟨"result_file", some (tx "direct_sky.ill")⟩] }

def t_total_sky : TaskDescriptor :=
  { name := "total_sky", templateRef := "DaylightCoefficient",
    needs := [], loop := none, subFolder := none, subPaths := [],
    inputs := [("radiance_parameters", .dagInput "radiance_parameters"),
               ("fixed_radiance_parameters", .lit "-aa 0.0 -I -c 1 -faf"),
               ("sensor_count", .dagInput "sensor_count"),
               ("sky_matrix", .dagInput "sky_matrix"),
               ("sky_dome", .dagInput "sky_dome"),
               ("sensor_grid", .dagInput "sensor_grid"),
               ("scene_file", .dagInput "octree_file"),
               ("bsdf_folder", .dagInput "bsdfs")],
    outputs := [⟨"result_file", some (tx "total_sky.ill")⟩] }

def t_output_matrix_math : TaskDescriptor :=
  { name := "output_matrix_math", templateRef := "AddRemoveSkyMatrix",
    needs := ["direct_sunlight", "total_sky", "direct_sky"],
    loop := none, subFolder := none, subPaths := [],
    inputs := [("name", .dagInput "grid_name"),
               ("direct_sky_matrix", .taskOut "direct_sky" "result_file"),
               ("total_sky_matrix", .taskOut "total_sky" "result_file"),
               ("sunlight_matrix", .taskOut "direct_sunlight" "result_file"),
               ("conversion", .lit "47.4 119.9 11.6")],
    outputs := [⟨"results_file",
                 some [.txt "../final/total/", .field "self.name", .txt ".ill"]⟩] }

def t_direct_sunlight_to_npy : TaskDescriptor :=
  { name := "direct_sunlight_to_npy", templateRef := "BinaryToNpy",
    needs := ["direct_sunlight"],
    loop := none, subFolder := none, subPaths := [],
    inputs := [("name", .dagInput "grid_name"),
               ("matrix_file", .taskOut "direct_sunlight" "result_file"),
               ("conversion", .lit "47.4 119.9 11.6")],
    outputs := [⟨"output_file",
                 some [.txt "../final/direct_sunlight/", .field "self.name",
                       .txt ".ill"]⟩] }

end TwoPhaseRt

/-- The `TwoPhaseRayTracing` DAG of
`src/pollination/three_phase/two_phase/dynamic/_raytracing.py`. -/
def twoPhaseRayTracingDag : DAGDescriptor :=
  { name := "two-phase-ray-tracing",
    dagInputs := [{ name := "radiance_parameters", kind := .str,
                    defaultStr := some "-ab 2 -ad 5000 -lw 2e-05" },
                  { name := "octree_file", kind := .file, extensions := ["oct"] },
                  { name := "octree_file_direct", kind := .file, extensions := ["oct"] },
                  { name := "octree_file_with_suns", kind := .file, extensions := ["oct"] },
                  { name := "grid_name", kind := .str },
                  { name := "sensor_grid", kind := .file, extensions := ["pts"] },
                  { name := "sensor_count", kind := .int },
                  { name := "sun_modifiers", kind := .file },
                  { name := "sky_matrix", kind := .file },
                  { name := "sky_matrix_direct", kind := .file },
                  { name := "sky_dome", kind := .file },
                  { name := "bsdfs", kind := .folder, optionalFlag := true }],
    tasks := [TwoPhaseRt.t_direct_sunlight, TwoPhaseRt.t_direct_sky,
              TwoPhaseRt.t_total_sky, TwoPhaseRt.t_output_matrix_math,
              TwoPhaseRt.t_direct_sunlight_to_npy],
    dagOutputs := [] }

/-- All DAG descriptors declared in the repository's source files. -/
def repoDags : List DAGDescriptor :=
  [threePhaseDag, nestedThreePhaseDag, preparationDag, twoPhaseRayTracingDag]

/-! ## Dependency resolution

Modelled from the spec: the Dependency Resolver itself lives in the external
`queenbee`/`pollination_dsl` engine, not under `src/`.  Following §4.1 of the
spec, an edge runs from producer to consumer for every `needs` entry,
task-output input binding, and task-output `loop` binding; the sort emits, at
each step, the first declared task all of whose producers were already
emitted, and reports the names of the still-pending tasks when none is ready
(a cycle or a dangling reference). -/

/-- The names of the tasks a task references (its producers): its `needs`
list, every `taskOut` input binding and a `taskOut` loop source. -/
def taskDeps (t : TaskDescriptor) : List String :=
  t.needs ++
  t.inputs.filterMap (fun p =>
    match p.2 with
    | .taskOut tn _ => some tn
    | _ => none) ++
  (match t.loop with
   | some (.taskOut tn _) => [tn]
   | _ => [])

/-- Modelled from the spec: one emission step of the topological sort. -/
def topoSortAux (fuel : Nat) (pending : List TaskDescriptor)
    (emitted : List String) : Except (List String) (List String) :=
  match fuel with
  | 0 => .error (pending.map (·.name))
  | Nat.succ f =>
      match pending.find? (fun t =>
          (taskDeps t).all (fun d => emitted.contains d)) with
      | none =>
          if pending.isEmpty then .ok emitted
          else .error (pending.map (·.name))
      | some t =>
          topoSortAux f (pending.filter (fun u => u.name ≠ t.name))
            (emitted ++ [t.name])

/-- Modelled from the spec: the Dependency Resolver.  Returns the total
order over the task names, or the names of the tasks involved in a cycle or
dangling reference. -/
def topoSort (d : DAGDescriptor) : Except (List String) (List String) :=
  topoSortAux (d.tasks.length + 1) d.tasks []

/-- Position of a name in a list (length of the list when absent). -/
def idxOf (l : List String) (s : String) : Nat :=
  match l with
  | [] => 0
  | a :: rest => if a = s then 0 else idxOf rest s + 1

/-- `l` is a valid topological order for `d`: every task of `d` occurs in
`l` strictly after every task it references. -/
def isTopoOrder (d : DAGDescriptor) (l : List String) : Bool :=
  d.tasks.all (fun t =>
    l.contains t.name &&
    (taskDeps t).all (fun p => l.contains p && idxOf l p < idxOf l t.name))

/-- The pure-text rendering of a template, when it has no field parts. -/
def pureTxt : Tmpl → Option String
  | [] => some ""
  | .txt s :: rest => (pureTxt rest).map (s ++ ·)
  | .field _ :: _ => none

/-- The fixed folder/file paths under which a task materializes artifacts:
its pure-text `sub_folder`, and every pure-text output destination. -/
def taskArtifactRoots (t : TaskDescriptor) : List String :=
  (match t.subFolder with
   | some tm => (pureTxt tm).toList
   | none => []) ++
  t.outputs.filterMap (fun o => o.dest.bind pureTxt)

/-- The names of the tasks of `d` (other than `t` itself) whose artifact
roots some input of `t` names by a bare path literal. -/
def artifactDeps (d : DAGDescriptor) (t : TaskDescriptor) : List String :=
  d.tasks.filterMap (fun u =>
    if u.name ≠ t.name ∧
        t.inputs.any (fun p =>
          match p.2 with
          | .lit s => (taskArtifactRoots u).contains s
          | _ => false) then
      some u.name
    else none)

/-- `t` has some input bound to a bare path literal that names another
task's artifact root (the addressing style §4.4 of the spec rules out). -/
def bindsUpstreamByPathLiteral (d : DAGDescriptor) (t : TaskDescriptor) : Bool :=
  !(artifactDeps d t).isEmpty

/-- `l` also respects artifact-consumption edges of `d`: every task stands
after every task whose artifacts it names by a bare path literal. -/
def respectsArtifactOrder (d : DAGDescriptor) (l : List String) : Bool :=
  d.tasks.all (fun t =>
    (artifactDeps d t).all (fun p => l.contains p && idxOf l p < idxOf l t.name))

/-- Split a character list into `/`-separated segments. -/
def splitSegsAux : List Char → List Char → List String
  | [], cur => [String.mk cur.reverse]
  | c :: rest, cur =>
      if c = '/' then String.mk cur.reverse :: splitSegsAux rest []
      else splitSegsAux rest (c :: cur)

/-- The `/`-separated segments of a path. -/
def pathSegs (s : String) : List String :=
  splitSegsAux s.toList []

/-- A path escapes its working area when one of its `/`-separated segments
is the parent-directory segment `..`. -/
def pathEscapes (s : String) : Bool :=
  (pathSegs s).contains ".."

/-- A template-valued destination escapes when a `..` segment occurs in its
literal text (item fields are identifiers, never `..`). -/
def tmplEscapes (t : Tmpl) : Bool :=
  t.any (fun p =>
    match p with
    | .txt s => pathEscapes s
    | .field _ => false)

/-- Some declared output destination of `t` escapes the working area. -/
def outputEscapes (t : TaskDescriptor) : Bool :=
  t.outputs.any (fun o =>
    match o.dest with
    | some d => tmplEscapes d
    | none => false)

/-- Some literal input binding of `t` is a path that escapes the working
area (e.g. a bound results path). -/
def literalInputEscapes (t : TaskDescriptor) : Bool :=
  t.inputs.any (fun p =>
    match p.2 with
    | .lit s => pathEscapes s
    | _ => false)

/-- The resolver succeeds on `d` and its order is topological, and moreover
places every task after the tasks whose artifacts it consumes by bare path
literal. -/
def resolvesInArtifactOrder (d : DAGDescriptor) : Bool :=
  match topoSort d with
  | .ok l => isTopoOrder d l && respectsArtifactOrder d l
  | .error _ => false

/-- In the order the resolver produces for `d`, task `earlier` stands
strictly before task `later`. -/
def orderedBefore (d : DAGDescriptor) (earlier later : String) : Bool :=
  match topoSort d with
  | .ok l => l.contains earlier && l.contains later &&
             decide (idxOf l earlier < idxOf l later)
  | .error _ => false

/-! ## Loop expansion

Modelled from the spec: the Loop Expander lives in the external workflow
engine, not under `src/`.  Following §4.2 of the spec, a task bound to a
collection is fanned out to one instance per Loop Item; every template
placeholder referencing the current item's fields is substituted with the
item's literal values, and a template referencing a field absent on the item
is a configuration error (`none`). -/

/-- A Loop Item: a structured record whose fields are the only legal
substitution targets of the loop's templates. -/
structure LoopItem where
  fields : List (String × String)
  deriving Repr, DecidableEq

/-- Look up a field of a Loop Item. -/
def itemField (it : LoopItem) (f : String) : Option String :=
  (it.fields.find? (fun p => p.1 = f)).map (·.2)

/-- Substitute the item's fields into a template; `none` when the template
references a field absent on the item. -/
def renderTmpl (it : LoopItem) : Tmpl → Option String
  | [] => some ""
  | .txt s :: rest => (renderTmpl it rest).map (s ++ ·)
  | .field f :: rest =>
      match itemField it f, renderTmpl it rest with
      | some v, some r => some (v ++ r)
      | _, _ => none

/-- Substitute the item's fields into a bound value: only item templates
change, every other binding is kept as declared. -/
def renderBound (it : LoopItem) : BoundValue → Option BoundValue
  | .itemTmpl t => (renderTmpl it t).map .lit
  | v => some v

/-- Map a fallible function over a list, failing if any element fails. -/
def mapOpt : List α → (α → Option β) → Option (List β)
  | [], _ => some []
  | a :: l, f =>
      match f a, mapOpt l f with
      | some b, some bs => some (b :: bs)
      | _, _ => none

/-- One materialized instance of a loop-expanded task. -/
structure TaskInstance where
  baseName : String
  subFolder : Option String
  inputs : List (String × BoundValue)
  subPaths : List (String × String)
  deriving Repr, DecidableEq

/-- Render an optional sub-folder template. -/
def renderSubFolder (it : LoopItem) : Option Tmpl → Option (Option String)
  | none => some none
  | some tm => (renderTmpl it tm).map some

/-- Modelled from the spec: materialize one instance of `t` for Loop Item
`it`, substituting the item's fields into the sub-folder, input and
sub-path templates. -/
def instantiate (t : TaskDescriptor) (it : LoopItem) : Option TaskInstance :=
  match renderSubFolder it t.subFolder,
        mapOpt t.inputs (fun p => (renderBound it p.2).map (fun v => (p.1, v))),
        mapOpt t.subPaths (fun p => (renderTmpl it p.2).map (fun v => (p.1, v))) with
  | some sf, some ins, some sps =>
      some { baseName := t.name, subFolder := sf, inputs := ins, subPaths := sps }
  | _, _, _ => none

/-- Modelled from the spec: fan `t` out over the resolved loop collection,
one instance per item. -/
def expandLoop (t : TaskDescriptor) (items : List LoopItem) :
    List (Option TaskInstance) :=
  items.map (instantiate t)

/-- The item fields a template references. -/
def tmplFields : Tmpl → List String
  | [] => []
  | .txt _ :: rest => tmplFields rest
  | .field f :: rest => f :: tmplFields rest

/-- The item fields a bound value references. -/
def boundFields : BoundValue → List String
  | .itemTmpl t => tmplFields t
  | _ => []

/-- Every item field any template of `t` references. -/
def taskTmplFields (t : TaskDescriptor) : List String :=
  (match t.subFolder with
   | some tm => tmplFields tm
   | none => []) ++
  t.inputs.flatMap (fun p => boundFields p.2) ++
  t.subPaths.flatMap (fun p => tmplFields p.2)

/-! ## Phase Combination Resolver

Modelled from the spec: the `MultiPhaseCombinations` operation the
`get_three_phase_combinations` tasks bind lives in the external
`honeybee_radiance` package, not under `src/`.  Following §4.3 of the spec:
for every receiver, every sender aperture group of that receiver and every
declared state of that group, emit one Combination Tuple pairing the view
matrix keyed by (receiver, sender), the transmission matrix keyed by
(sender, state) and the daylight matrix keyed by the sender; a dangling
group reference or a group with zero states is a configuration error, and
identifier collisions abort resolution naming every colliding identifier. -/

/-- One declared state of an aperture group, with the transmission-matrix
(BSDF) reference of that state. -/
structure StateInfo where
  identifier : String
  tmtx : String
  deriving Repr, DecidableEq

/-- An aperture group and its declared states: a static group declares
exactly the default state, a dynamic group one state per variant. -/
structure ApertureGroup where
  identifier : String
  states : List StateInfo
  deriving Repr, DecidableEq

/-- A receiver (sensor grid) together with the aperture groups that are its
light-transport senders. -/
structure Receiver where
  identifier : String
  senderGroups : List String
  deriving Repr, DecidableEq

/-- The unit the Phase Combination Resolver emits. -/
structure CombinationTuple where
  grid : String
  group : String
  state : String
  vmtx : String
  tmtx : String
  dmtx : String
  skyVector : String
  identifier : String
  deriving Repr, DecidableEq

/-- View-matrix reference, keyed by (receiver, sender). -/
def mkVmtxRef (grid group : String) : String :=
  "view_mtx/" ++ grid ++ "/" ++ group ++ ".vmx"

/-- Daylight-matrix reference, keyed by the sender group. -/
def mkDmtxRef (group : String) : String :=
  "daylight_mtx/" ++ group ++ ".dmx"

/-- The sky vector every product pairs with. -/
def skyVectorRef : String := "sky.mtx"

/-- The synthesized identifier of a Combination Tuple, used both as the
multiplication task's loop key and as the result file's name. -/
def mkCombIdentifier (grid group state : String) : String :=
  grid ++ "__" ++ group ++ "__" ++ state

/-- The Combination Tuple of one (receiver, group, state) triple. -/
def mkTuple (r : Receiver) (g : ApertureGroup) (s : StateInfo) :
    CombinationTuple :=
  { grid := r.identifier, group := g.identifier, state := s.identifier,
    vmtx := mkVmtxRef r.identifier g.identifier, tmtx := s.tmtx,
    dmtx := mkDmtxRef g.identifier, skyVector := skyVectorRef,
    identifier := mkCombIdentifier r.identifier g.identifier s.identifier }

/-- Look a group up in the aperture-group catalog by name. -/
def findGroup (gs : List ApertureGroup) (n : String) : Option ApertureGroup :=
  gs.find? (fun g => g.identifier = n)

/-- All Combination Tuples of the three catalogs, before validation. -/
def combinationsFor (rs : List Receiver) (gs : List ApertureGroup) :
    List CombinationTuple :=
  rs.flatMap (fun r =>
    r.senderGroups.flatMap (fun gn =>
      match findGroup gs gn with
      | some g => g.states.map (mkTuple r g)
      | none => []))

/-- The first dangling (receiver, group) cross-reference, if any. -/
def firstDangling (rs : List Receiver) (gs : List ApertureGroup) :
    Option (String × String) :=
  rs.findSome? (fun r =>
    r.senderGroups.findSome? (fun gn =>
      if (findGroup gs gn).isSome then none else some (r.identifier, gn)))

/-- The first aperture group declaring zero states, if any. -/
def firstEmptyGroup (gs : List ApertureGroup) : Option String :=
  (gs.find? (fun g => g.states.isEmpty)).map (·.identifier)

/-- The identifiers occurring more than once, each named once. -/
def dupIdentifiers (ids : List String) : List String :=
  (ids.filter (fun i => decide (2 ≤ ids.count i))).dedup

/-- A resolution failure of the Phase Combination Resolver. -/
inductive CombError where
  | danglingGroup (receiver group : String)
  | emptyStates (group : String)
  | collision (identifiers : List String)
  deriving Repr, DecidableEq

/-- Modelled from the spec: the Phase Combination Resolver.  Emits the
exhaustive tuple set, or a configuration/combination error; on a collision
the error names every colliding identifier. -/
def resolveCombinations (rs : List Receiver) (gs : List ApertureGroup) :
    Except CombError (List CombinationTuple) :=
  match firstDangling rs gs with
  | some p => .error (.danglingGroup p.1 p.2)
  | none =>
      match firstEmptyGroup gs with
      | some g => .error (.emptyStates g)
      | none =>
          let ts := combinationsFor rs gs
          let dups := dupIdentifiers (ts.map (·.identifier))
          if dups.isEmpty then .ok ts else .error (.collision dups)

/-- The Loop Item the multiplication task loops over, built from one
Combination Tuple. -/
def tupleItem (t : CombinationTuple) : LoopItem :=
  ⟨[("identifier", t.identifier), ("vmtx", t.vmtx), ("tmtx", t.tmtx),
    ("dmtx", t.dmtx)]⟩

/-! ## Numeric input validation

Modelled from the spec: enforcement of the `spec` bounds of DAG-level
inputs happens in the external engine; the declarations themselves are the
code's.  A numeric value is valid when it is integral for an `int` input
and lies within the declared inclusive bounds. -/

/-- Modelled from the spec: numeric bounds validation of a DAG-level input. -/
def validNum (d : DagInputDecl) (v : ℚ) : Bool :=
  (match d.kind with
   | .int => decide (v.den = 1)
   | _ => true) &&
  (match d.minB with
   | some m => decide (m ≤ v)
   | none => true) &&
  (match d.maxB with
   | some m => decide (v ≤ m)
   | none => true)

/-- Modelled from the spec: resolution of a numeric DAG-level input value:
an out-of-bound value is a configuration error, never passed through. -/
def resolveNumInput (d : DagInputDecl) (v : ℚ) : Except String ℚ :=
  if validNum d v then .ok v
  else .error ("out-of-bound value for input " ++ d.name)

/-! ## Shared lemmas -/

/-- Every tuple the Phase Combination Resolver generates carries the view
matrix keyed by its (receiver, sender) pair, the daylight matrix keyed by
its sender group, and the shared sky vector. -/
theorem mem_combinations_shape (rs : List Receiver) (gs : List ApertureGroup)
    (t : CombinationTuple) (ht : t ∈ combinationsFor rs gs) :
    t.vmtx = mkVmtxRef t.grid t.group ∧ t.dmtx = mkDmtxRef t.group ∧
    t.skyVector = skyVectorRef := by
  simp only [combinationsFor, List.mem_flatMap] at ht
  obtain ⟨r, hr, gn, hgn, hmem⟩ := ht
  cases hfind : findGroup gs gn with
  | none => rw [hfind] at hmem; simp at hmem
  | some g =>
      rw [hfind] at hmem
      simp only [List.mem_map] at hmem
      obtain ⟨s, hs, rfl⟩ := hmem
      exact ⟨rfl, rfl, rfl⟩

/-- A successful resolution emits exactly the generated tuple set. -/
theorem resolve_ok_eq (rs : List Receiver) (gs : List ApertureGroup)
    (l : List CombinationTuple) (h : resolveCombinations rs gs = .ok l) :
    l = combinationsFor rs gs := by
  unfold resolveCombinations at h
  split at h
  · cases h
  · split at h
    · cases h
    · simp only at h
      split_ifs at h
      exact (Except.ok.inj h).symm

/-- Mapping a fallible function over a list only depends on the function's
values on the list's members. -/
theorem mapOpt_congr (l : List α) (f g : α → Option β)
    (h : ∀ a ∈ l, f a = g a) : mapOpt l f = mapOpt l g := by
  induction l with
  | nil => rfl
  | cons a l ih =>
      simp only [mapOpt, h a (by simp), ih (fun b hb => h b (by simp [hb]))]

/-- Template substitution reads only the item fields the template names. -/
theorem renderTmpl_congr (tm : Tmpl) (it1 it2 : LoopItem)
    (h : ∀ f ∈ tmplFields tm, itemField it1 f = itemField it2 f) :
    renderTmpl it1 tm = renderTmpl it2 tm := by
  induction tm with
  | nil => rfl
  | cons p rest ih =>
      cases p with
      | txt s =>
          simp only [renderTmpl,
            ih (fun f hf => h f (by simpa [tmplFields] using hf))]
      | field f =>
          have hf : itemField it1 f = itemField it2 f :=
            h f (by simp [tmplFields])
          simp only [renderTmpl, hf,
            ih (fun g hg => h g (by simp [tmplFields, hg]))]

/-- Bound-value substitution reads only the item fields it names. -/
theorem renderBound_congr (v : BoundValue) (it1 it2 : LoopItem)
    (h : ∀ f ∈ boundFields v, itemField it1 f = itemField it2 f) :
    renderBound it1 v = renderBound it2 v := by
  cases v with
  | itemTmpl t =>
      simp only [renderBound,
        renderTmpl_congr t it1 it2 (fun f hf => h f (by simpa [boundFields] using hf))]
  | lit s => rfl
  | taskOut a b => rfl
  | dagInput n => rfl

/-- A loop instance is a function of the task's static declaration and the
item fields the task's templates name: items agreeing on those fields give
identical instances. -/
theorem instantiate_congr (t : TaskDescriptor) (it1 it2 : LoopItem)
    (h : ∀ f ∈ taskTmplFields t, itemField it1 f = itemField it2 f) :
    instantiate t it1 = instantiate t it2 := by
  have hsub : renderSubFolder it1 t.subFolder = renderSubFolder it2 t.subFolder := by
    cases hsf : t.subFolder with
    | none => rfl
    | some tm =>
        have hin : ∀ f ∈ tmplFields tm, itemField it1 f = itemField it2 f := by
          intro f hf
          exact h f (List.mem_append.mpr (Or.inl (List.mem_append.mpr
            (Or.inl (by simp [taskTmplFields, hsf, hf])))))
        simp only [renderSubFolder, renderTmpl_congr tm it1 it2 hin]
  have hins : mapOpt t.inputs (fun p => (renderBound it1 p.2).map (fun v => (p.1, v))) =
      mapOpt t.inputs (fun p => (renderBound it2 p.2).map (fun v => (p.1, v))) := by
    apply mapOpt_congr
    intro p hp
    rw [renderBound_congr p.2 it1 it2 (fun f hf =>
      h f (List.mem_append.mpr (Or.inl (List.mem_append.mpr
        (Or.inr (List.mem_flatMap.mpr ⟨p, hp, hf⟩))))))]
  have hsps : mapOpt t.subPaths (fun p => (renderTmpl it1 p.2).map (fun v => (p.1, v))) =
      mapOpt t.subPaths (fun p => (renderTmpl it2 p.2).map (fun v => (p.1, v))) := by
    apply mapOpt_congr
    intro p hp
    rw [renderTmpl_congr p.2 it1 it2 (fun f hf =>
      h f (List.mem_append.mpr (Or.inr (List.mem_flatMap.mpr ⟨p, hp, hf⟩))))]
  unfold instantiate
  rw [hsub, hins, hsps]

/-- Instantiating the `multiply_matrix` task at a Combination Tuple's Loop
Item: the loop key comes from the tuple's identifier and the three matrix
sub-paths come from the tuple's vmtx/tmtx/dmtx fields; everything else is
the task's static declaration. -/
theorem inst_multiply (a : CombinationTuple) :
    instantiate t_multiply_matrix (tupleItem a) = some
      { baseName := "multiply_matrix", subFolder := some "results/3_phase",
        inputs := [("identifier", .lit a.identifier),
                   ("sky_vector", .taskOut "create_total_sky" "sky_matrix"),
                   ("view_matrix", .lit "calcs/3_phase/view_mtx"),
                   ("t_matrix", .lit "model/bsdf"),
                   ("daylight_matrix", .lit "calcs/3_phase/daylight_mtx")],
        subPaths := [("view_matrix", a.vmtx), ("t_matrix", a.tmtx),
                     ("daylight_matrix", a.dmtx)] } := by
  simp [instantiate, t_multiply_matrix, renderSubFolder, renderTmpl, renderBound,
    itemField, tupleItem, mapOpt, tx, List.find?]

/-! ## Claim theorems -/

/-- C1: for every acyclic DAG Descriptor in the repository, dependency
resolution produces a total order over its tasks in which every task
appears after all tasks whose outputs or artifacts it consumes; in
particular, every `multiply_matrix` instance is ordered after the task
instances that produce the view matrix (`calculate_view_matrix`), the
transmission matrices (`_create_rad_folder`, which lays down the BSDF
folder) and the daylight matrix (`daylight_mtx_calculation`) it reads. -/
theorem C1_dependency_order_confirmed :
    repoDags.all resolvesInArtifactOrder = true ∧
    orderedBefore threePhaseDag "calculate_view_matrix" "multiply_matrix" = true ∧
    orderedBefore threePhaseDag "_create_rad_folder" "multiply_matrix" = true ∧
    orderedBefore threePhaseDag "daylight_mtx_calculation" "multiply_matrix" = true ∧
    orderedBefore nestedThreePhaseDag "calculate_view_matrix" "multiply_matrix" = true ∧
    orderedBefore nestedThreePhaseDag "daylight_mtx_calculation" "multiply_matrix" = true := by
  decide

/-- C2 counterexample: the claim that no task input binding identifies an
upstream task's artifact by a bare path literal is false: in the top-level
DAG, the `multiply_matrix` task binds its `view_matrix` input to the bare
path literal `calcs/3_phase/view_mtx`, which is exactly the declared
sub-folder of the upstream `calculate_view_matrix` task. -/
theorem C2_claim_counterexample :
    ¬ (∀ d ∈ repoDags, ∀ t ∈ d.tasks,
        bindsUpstreamByPathLiteral d t = false) ∧
    t_multiply_matrix ∈ threePhaseDag.tasks ∧
    ("view_matrix", BoundValue.lit "calcs/3_phase/view_mtx") ∈ t_multiply_matrix.inputs ∧
    t_calculate_view_matrix.subFolder = some (tx "calcs/3_phase/view_mtx") ∧
    bindsUpstreamByPathLiteral threePhaseDag t_multiply_matrix = true := by
  decide

/-- C2 amended: every consumer task except the `multiply_matrix` tasks
identifies upstream artifacts exclusively by (task name, output name) plus
an optional sub-path; the `multiply_matrix` tasks additionally bind their
`view_matrix`, `t_matrix` and `daylight_matrix` inputs to bare path
literals matching the producing tasks' destination folders
(`_create_rad_folder`, `calculate_view_matrix` and
`daylight_mtx_calculation` in the top-level DAG). -/
theorem C2_amended_reference_discipline :
    (∀ d ∈ repoDags, ∀ t ∈ d.tasks, t.name ≠ "multiply_matrix" →
      bindsUpstreamByPathLiteral d t = false) ∧
    artifactDeps threePhaseDag t_multiply_matrix =
      ["_create_rad_folder", "calculate_view_matrix", "daylight_mtx_calculation"] ∧
    artifactDeps nestedThreePhaseDag Nested.t_multiply_matrix =
      ["calculate_view_matrix", "daylight_mtx_calculation"] := by
  decide

/-- C2 amended, witness at a concrete task. -/
theorem C2_amended_witness :
    bindsUpstreamByPathLiteral threePhaseDag t_create_rad_folder = false :=
  C2_amended_reference_discipline.1 threePhaseDag (by decide)
    t_create_rad_folder (by decide) (by decide)

/-- C3: for a model with exactly one static aperture group and one dynamic
aperture group with three declared states, sharing one sensor-grid
receiver, the Phase Combination Resolver emits exactly 1 + 3 = 4
Combination Tuples; the three tuples of the dynamic group carry identical
view-matrix references, identical daylight-matrix references, and pairwise
distinct transmission-matrix references. -/
theorem C3_four_combination_tuples
    (grid sg dg sDef s1 s2 s3 tS t1 t2 t3 : String)
    (hg : sg ≠ dg)
    (ht12 : t1 ≠ t2) (ht13 : t1 ≠ t3) (ht23 : t2 ≠ t3)
    (hnc : dupIdentifiers ((combinationsFor
        [⟨grid, [sg, dg]⟩]
        [⟨sg, [⟨sDef, tS⟩]⟩, ⟨dg, [⟨s1, t1⟩, ⟨s2, t2⟩, ⟨s3, t3⟩]⟩]).map
          (·.identifier)) = []) :
    ∃ l, resolveCombinations [⟨grid, [sg, dg]⟩]
        [⟨sg, [⟨sDef, tS⟩]⟩, ⟨dg, [⟨s1, t1⟩, ⟨s2, t2⟩, ⟨s3, t3⟩]⟩] = .ok l ∧
      l.length = 4 ∧
      (l.filter (fun t => decide (t.group = dg))).length = 3 ∧
      (∀ a ∈ l, ∀ b ∈ l, a.group = dg → b.group = dg →
        a.vmtx = b.vmtx ∧ a.dmtx = b.dmtx) ∧
      List.Pairwise (· ≠ ·)
        ((l.filter (fun t => decide (t.group = dg))).map (·.tmtx)) := by
  have hdang : firstDangling [⟨grid, [sg, dg]⟩]
      [⟨sg, [⟨sDef, tS⟩]⟩, ⟨dg, [⟨s1, t1⟩, ⟨s2, t2⟩, ⟨s3, t3⟩]⟩] = none := by
    simp [firstDangling, findGroup, List.findSome?, List.find?, hg]
  have hempty : firstEmptyGroup
      [⟨sg, [⟨sDef, tS⟩]⟩, ⟨dg, [⟨s1, t1⟩, ⟨s2, t2⟩, ⟨s3, t3⟩]⟩] = none := by
    simp [firstEmptyGroup, List.find?]
  have hcomb : combinationsFor [⟨grid, [sg, dg]⟩]
      [⟨sg, [⟨sDef, tS⟩]⟩, ⟨dg, [⟨s1, t1⟩, ⟨s2, t2⟩, ⟨s3, t3⟩]⟩] =
      [mkTuple ⟨grid, [sg, dg]⟩ ⟨sg, [⟨sDef, tS⟩]⟩ ⟨sDef, tS⟩,
       mkTuple ⟨grid, [sg, dg]⟩ ⟨dg, [⟨s1, t1⟩, ⟨s2, t2⟩, ⟨s3, t3⟩]⟩ ⟨s1, t1⟩,
       mkTuple ⟨grid, [sg, dg]⟩ ⟨dg, [⟨s1, t1⟩, ⟨s2, t2⟩, ⟨s3, t3⟩]⟩ ⟨s2, t2⟩,
       mkTuple ⟨grid, [sg, dg]⟩ ⟨dg, [⟨s1, t1⟩, ⟨s2, t2⟩, ⟨s3, t3⟩]⟩ ⟨s3, t3⟩] := by
    simp [combinationsFor, findGroup, List.find?, hg]
  refine ⟨[mkTuple ⟨grid, [sg, dg]⟩ ⟨sg, [⟨sDef, tS⟩]⟩ ⟨sDef, tS⟩,
       mkTuple ⟨grid, [sg, dg]⟩ ⟨dg, [⟨s1, t1⟩, ⟨s2, t2⟩, ⟨s3, t3⟩]⟩ ⟨s1, t1⟩,
       mkTuple ⟨grid, [sg, dg]⟩ ⟨dg, [⟨s1, t1⟩, ⟨s2, t2⟩, ⟨s3, t3⟩]⟩ ⟨s2, t2⟩,
       mkTuple ⟨grid, [sg, dg]⟩ ⟨dg, [⟨s1, t1⟩, ⟨s2, t2⟩, ⟨s3, t3⟩]⟩ ⟨s3, t3⟩],
      ?_, ?_, ?_, ?_, ?_⟩
  · simp only [resolveCombinations, hdang, hempty, hnc]
    rw [hcomb]
    rfl
  · rfl
  · simp [mkTuple, hg]
  · intro a ha b hb hag hbg
    simp only [List.mem_cons, List.not_mem_nil, or_false] at ha hb
    rcases ha with h | h | h | h <;> subst h <;>
      rcases hb with h | h | h | h <;> subst h <;>
        first
          | (exact absurd hag hg)
          | (exact absurd hbg hg)
          | (exact ⟨rfl, rfl⟩)
  · simp [mkTuple, hg, List.pairwise_cons]
    exact ⟨⟨ht12, ht13⟩, ht23⟩

/-- C3 witness at a concrete model. -/
theorem C3_four_combination_tuples_witness :
    ∃ l, resolveCombinations [⟨"grid_1", ["st_ap", "dyn_ap"]⟩]
        [⟨"st_ap", [⟨"default", "tS.xml"⟩]⟩,
         ⟨"dyn_ap", [⟨"0", "t0.xml"⟩, ⟨"1", "t1.xml"⟩, ⟨"2", "t2.xml"⟩]⟩] = .ok l ∧
      l.length = 4 ∧
      (l.filter (fun t => decide (t.group = "dyn_ap"))).length = 3 ∧
      (∀ a ∈ l, ∀ b ∈ l, a.group = "dyn_ap" → b.group = "dyn_ap" →
        a.vmtx = b.vmtx ∧ a.dmtx = b.dmtx) ∧
      List.Pairwise (· ≠ ·)
        ((l.filter (fun t => decide (t.group = "dyn_ap"))).map (·.tmtx)) :=
  C3_four_combination_tuples "grid_1" "st_ap" "dyn_ap" "default" "0" "1" "2"
    "tS.xml" "t0.xml" "t1.xml" "t2.xml"
    (by decide) (by decide) (by decide) (by decide) (by decide)

/-- C4: for every aperture group the planned graph contains exactly one
view-matrix ray-tracing instance per receiver item and exactly one
daylight-matrix ray-tracing instance per grouped-aperture item, regardless
of how many states a group declares (the loops of
`calculate_view_matrix` and `daylight_mtx_calculation` fan out one
instance per loop item); across the states of one group only the
transmission-matrix reference varies between the multiplication instances,
while the view-matrix and daylight-matrix references are reused unchanged,
and the multiplication instance draws exactly its vmtx/tmtx/dmtx sub-paths
from the current tuple's fields. -/
theorem C4_matrix_reuse_invariant :
    (∀ items : List LoopItem,
      (expandLoop t_calculate_view_matrix items).length = items.length ∧
      (expandLoop t_daylight_mtx_calculation items).length = items.length ∧
      (expandLoop Nested.t_calculate_view_matrix items).length = items.length ∧
      (expandLoop Nested.t_daylight_mtx_calculation items).length = items.length) ∧
    (∀ rs gs l, resolveCombinations rs gs = Except.ok l →
      ∀ a ∈ l, ∀ b ∈ l, a.grid = b.grid → a.group = b.group →
        a.vmtx = b.vmtx ∧ a.dmtx = b.dmtx) ∧
    (∀ a : CombinationTuple,
      (instantiate t_multiply_matrix (tupleItem a)).map (·.subPaths) =
        some [("view_matrix", a.vmtx), ("t_matrix", a.tmtx),
              ("daylight_matrix", a.dmtx)]) := by
  refine ⟨fun items => ⟨?_, ?_, ?_, ?_⟩, ?_, ?_⟩
  · simp [expandLoop]
  · simp [expandLoop]
  · simp [expandLoop]
  · simp [expandLoop]
  · intro rs gs l h a ha b hb hgr hgp
    rw [resolve_ok_eq rs gs l h] at ha hb
    obtain ⟨hav, had, -⟩ := mem_combinations_shape rs gs a ha
    obtain ⟨hbv, hbd, -⟩ := mem_combinations_shape rs gs b hb
    rw [hav, hbv, had, hbd, hgr, hgp]
    exact ⟨rfl, rfl⟩
  · intro a
    rw [inst_multiply a]
    rfl

/-- C4 witness at a concrete catalog and tuple. -/
theorem C4_matrix_reuse_invariant_witness :
    (expandLoop t_calculate_view_matrix
      [⟨[("identifier", "ap_1")]⟩, ⟨[("identifier", "ap_2")]⟩]).length = 2 ∧
    ((mkTuple ⟨"g", ["a"]⟩ ⟨"a", [⟨"s0", "t0.xml"⟩, ⟨"s1", "t1.xml"⟩]⟩
        ⟨"s0", "t0.xml"⟩).vmtx =
      (mkTuple ⟨"g", ["a"]⟩ ⟨"a", [⟨"s0", "t0.xml"⟩, ⟨"s1", "t1.xml"⟩]⟩
        ⟨"s1", "t1.xml"⟩).vmtx) := by
  have h := C4_matrix_reuse_invariant
  refine ⟨(h.1 [⟨[("identifier", "ap_1")]⟩, ⟨[("identifier", "ap_2")]⟩]).1, ?_⟩
  exact (h.2.1 [⟨"g", ["a"]⟩] [⟨"a", [⟨"s0", "t0.xml"⟩, ⟨"s1", "t1.xml"⟩]⟩]
    (combinationsFor [⟨"g", ["a"]⟩] [⟨"a", [⟨"s0", "t0.xml"⟩, ⟨"s1", "t1.xml"⟩]⟩])
    rfl
    (mkTuple ⟨"g", ["a"]⟩ ⟨"a", [⟨"s0", "t0.xml"⟩, ⟨"s1", "t1.xml"⟩]⟩ ⟨"s0", "t0.xml"⟩)
    (by decide)
    (mkTuple ⟨"g", ["a"]⟩ ⟨"a", [⟨"s0", "t0.xml"⟩, ⟨"s1", "t1.xml"⟩]⟩ ⟨"s1", "t1.xml"⟩)
    (by decide) rfl rfl).1

/-- C5: if two Combination Tuples of one resolver invocation synthesize the
same identifier (the catalogs being otherwise valid), resolution fails with
a collision error, no tuple set is emitted, and the error names exactly the
colliding identifiers — every identifier occurring at least twice, not just
the first pair encountered. -/
theorem C5_collision_aborts_resolution (rs : List Receiver)
    (gs : List ApertureGroup)
    (hdang : firstDangling rs gs = none)
    (hempty : firstEmptyGroup gs = none)
    (i : String)
    (hcol : 2 ≤ ((combinationsFor rs gs).map (·.identifier)).count i) :
    ∃ dups, resolveCombinations rs gs = .error (.collision dups) ∧
      i ∈ dups ∧
      (∀ j, 2 ≤ ((combinationsFor rs gs).map (·.identifier)).count j →
        j ∈ dups) ∧
      (∀ j ∈ dups, 2 ≤ ((combinationsFor rs gs).map (·.identifier)).count j) ∧
      ∀ l, resolveCombinations rs gs ≠ .ok l := by
  set ids := (combinationsFor rs gs).map (·.identifier) with hids
  have hmem : ∀ j, 2 ≤ ids.count j → j ∈ dupIdentifiers ids := by
    intro j hj
    have hjmem : j ∈ ids := by
      have hpos : 0 < ids.count j := lt_of_lt_of_le (by norm_num) hj
      exact List.count_pos_iff.mp hpos
    exact List.mem_dedup.mpr (List.mem_filter.mpr ⟨hjmem, by simpa using hj⟩)
  have hrev : ∀ j ∈ dupIdentifiers ids, 2 ≤ ids.count j := by
    intro j hj
    have hj2 := List.mem_filter.mp (List.mem_dedup.mp hj)
    simpa using hj2.2
  have hne : (dupIdentifiers ids).isEmpty = false := by
    have hi : i ∈ dupIdentifiers ids := hmem i hcol
    cases hd : dupIdentifiers ids with
    | nil => rw [hd] at hi; simp at hi
    | cons a l => simp [List.isEmpty]
  have hres : resolveCombinations rs gs = .error (.collision (dupIdentifiers ids)) := by
    simp only [resolveCombinations, hdang, hempty, ← hids]
    rw [hne]
    simp
  exact ⟨dupIdentifiers ids, hres, hmem i hcol, hmem, hrev,
    fun l h => by rw [hres] at h; cases h⟩

/-- C5 witness: a concrete catalog where two receivers collide on every
synthesized identifier. -/
theorem C5_collision_aborts_resolution_witness :
    ∃ dups, resolveCombinations [⟨"g", ["a"]⟩, ⟨"g", ["a"]⟩]
        [⟨"a", [⟨"s", "t.xml"⟩]⟩] = .error (.collision dups) ∧
      "g__a__s" ∈ dups ∧
      (∀ j, 2 ≤ ((combinationsFor [⟨"g", ["a"]⟩, ⟨"g", ["a"]⟩]
          [⟨"a", [⟨"s", "t.xml"⟩]⟩]).map (·.identifier)).count j → j ∈ dups) ∧
      (∀ j ∈ dups, 2 ≤ ((combinationsFor [⟨"g", ["a"]⟩, ⟨"g", ["a"]⟩]
          [⟨"a", [⟨"s", "t.xml"⟩]⟩]).map (·.identifier)).count j) ∧
      ∀ l, resolveCombinations [⟨"g", ["a"]⟩, ⟨"g", ["a"]⟩]
        [⟨"a", [⟨"s", "t.xml"⟩]⟩] ≠ .ok l :=
  C5_collision_aborts_resolution [⟨"g", ["a"]⟩, ⟨"g", ["a"]⟩]
    [⟨"a", [⟨"s", "t.xml"⟩]⟩] (by decide) (by decide) "g__a__s" (by decide)

/-- C6: loop resolution is deterministic and idempotent: expanding the
same task over the same collection twice yields identical instances;
expansion is the item-wise map of instantiation, so each instance is a
function only of the static declaration and its own item; instantiation
reads only the item fields the task's templates name; and the
`calculate_two_phase_matrix` destination sub-folder for an item is the
item-derived path `calcs/2_phase/identifier`. -/
theorem C6_idempotent_expansion :
    (∀ (t : TaskDescriptor) (items1 items2 : List LoopItem), items1 = items2 →
      expandLoop t items1 = expandLoop t items2) ∧
    (∀ (t : TaskDescriptor) (items : List LoopItem),
      expandLoop t items = items.map (instantiate t)) ∧
    (∀ (t : TaskDescriptor) (it1 it2 : LoopItem),
      (∀ f ∈ taskTmplFields t, itemField it1 f = itemField it2 f) →
      instantiate t it1 = instantiate t it2) ∧
    (∃ sf, t_calculate_two_phase_matrix.subFolder = some sf ∧
      renderTmpl ⟨[("identifier", "Room_1")]⟩ sf = some "calcs/2_phase/Room_1") := by
  refine ⟨fun t i1 i2 h => h ▸ rfl, fun t items => rfl, instantiate_congr,
    ⟨_, rfl, by decide⟩⟩

/-- C6 witness: two items agreeing on the referenced fields, one carrying
an extra unrelated field, produce the identical instance. -/
theorem C6_idempotent_expansion_witness :
    expandLoop t_multiply_matrix [] = expandLoop t_multiply_matrix [] ∧
    instantiate t_calculate_two_phase_matrix ⟨[("identifier", "Room_1")]⟩ =
      instantiate t_calculate_two_phase_matrix
        ⟨[("identifier", "Room_1"), ("unrelated", "zzz")]⟩ :=
  ⟨C6_idempotent_expansion.1 t_multiply_matrix [] [] rfl,
   C6_idempotent_expansion.2.2.1 t_calculate_two_phase_matrix
     ⟨[("identifier", "Room_1")]⟩
     ⟨[("identifier", "Room_1"), ("unrelated", "zzz")]⟩ (by decide)⟩

/-- C7: the declared DAG-level numeric bounds are enforced as configuration
errors: `north` accepts exactly the values in [0, 360] and defaults to 0;
`cpu_count` and `min_sensor_count` accept exactly the integers at least 1;
an out-of-bound value is rejected at resolution time and never passed
through. -/
theorem C7_numeric_bounds_enforced :
    north.defaultNum = some 0 ∧
    (∀ v : ℚ, validNum north v = true ↔ 0 ≤ v ∧ v ≤ 360) ∧
    (∀ v : ℚ, validNum cpu_count v = true ↔ v.den = 1 ∧ 1 ≤ v) ∧
    (∀ v : ℚ, validNum min_sensor_count v = true ↔ v.den = 1 ∧ 1 ≤ v) ∧
    (∀ d v, validNum d v = false → ∀ w, resolveNumInput d v ≠ Except.ok w) ∧
    (∀ d v w, resolveNumInput d v = Except.ok w →
      w = v ∧ validNum d v = true) := by
  refine ⟨rfl, ?_, ?_, ?_, ?_, ?_⟩
  · intro v
    simp [validNum, north, decide_eq_true_iff]
  · intro v
    simp [validNum, cpu_count, decide_eq_true_iff]
  · intro v
    simp [validNum, min_sensor_count, decide_eq_true_iff]
  · intro d v h w
    simp [resolveNumInput, h]
  · intro d v w h
    by_cases hv : validNum d v = true
    · simp [resolveNumInput, hv] at h
      exact ⟨h.symm, hv⟩
    · simp [resolveNumInput, hv] at h

/-- C7 witness: the out-of-bound value 361 for `north` is rejected. -/
theorem C7_numeric_bounds_enforced_witness :
    resolveNumInput north 361 ≠ Except.ok 361 :=
  C7_numeric_bounds_enforced.2.2.2.2.1 north 361 (by decide) 361

/-- C9: the declared default of the top-level `min_sensor_count` input is
50, while the input's own description text states that the default is 1 —
a caller who omits it gets 50, not 1. -/
theorem C9_min_sensor_count_default_50 :
    min_sensor_count.defaultNum = some 50 ∧
    min_sensor_count.description =
      "The minimum number of sensors in each sensor grid after " ++
      "redistributing the sensors based on cpu_count. This value takes " ++
      "precedence over the cpu_count and can be used to ensure that " ++
      "the parallelization does not result in generating unnecessarily small " ++
      "sensor grids. " ++
      "The default value is set to 1, which means that the " ++
      "cpu_count is always respected." := by
  exact ⟨rfl, by decide⟩

/-- C10: the top-level `ThreePhaseEntryPoint` DAG declares no DAG-level
outputs (the module-level `results` binding sits outside the class body),
while the nested three-phase DAG declares and exposes its `results_folder`
output. -/
theorem C10_dag_level_outputs :
    threePhaseDag.dagOutputs = [] ∧
    nestedThreePhaseDag.dagOutputs = [("results_folder", "results")] :=
  ⟨rfl, rfl⟩

/-- C8 counterexample: the claim that no declared output destination or
bound results path escapes the working area is false: the
`output_matrix_math` task writes its result to `../final/total/...` and
the `calculate_two_phase_matrix` task binds `results_folder` to
`../../../results/2_phase`, both escaping via parent-directory segments. -/
theorem C8_claim_counterexample :
    ¬ (∀ d ∈ repoDags, ∀ t ∈ d.tasks,
        outputEscapes t = false ∧ literalInputEscapes t = false) ∧
    TwoPhaseRt.t_output_matrix_math ∈ twoPhaseRayTracingDag.tasks ∧
    outputEscapes TwoPhaseRt.t_output_matrix_math = true ∧
    outputEscapes TwoPhaseRt.t_direct_sunlight_to_npy = true ∧
    t_calculate_two_phase_matrix ∈ threePhaseDag.tasks ∧
    literalInputEscapes t_calculate_two_phase_matrix = true := by
  decide

/-- C8 amended: every declared output destination and bound results path
stays within the enclosing DAG scope's working area, except the two final
result outputs of the two-phase ray-tracing DAG (written to
`../final/...`) and the `results_folder` binding of
`calculate_two_phase_matrix` (`../../../results/2_phase`), which
deliberately step up into shared parent result folders. -/
theorem C8_amended_confined_outputs :
    ∀ d ∈ repoDags, ∀ t ∈ d.tasks,
      t.name ∉ ["output_matrix_math", "direct_sunlight_to_npy",
                "calculate_two_phase_matrix"] →
      outputEscapes t = false ∧ literalInputEscapes t = false := by
  decide

/-- C8 amended, witness at a concrete task. -/
theorem C8_amended_confined_outputs_witness :
    outputEscapes t_create_rad_folder = false ∧
    literalInputEscapes t_create_rad_folder = false :=
  C8_amended_confined_outputs threePhaseDag (by decide)
    t_create_rad_folder (by decide) (by decide)

end ThreePhase
